import Mathlib

/-!
Verification of the `floating-memories` repository core against its
specification.

The development shallowly embeds:
  * the photo-listing HTTP handler
    `src/app/api/photos/[folder]/route.ts` (folder-key sanitization,
    directory resolution, image-extension filtering, sorting, and the
    always-200 error envelope);
  * the three-level navigation state machine of the gallery page
    (`src/unnamed/part_000`): Escape / back-button, galaxy click with the
    600 ms warp commit, photo click, arrow keys and the Prev/Next buttons;
  * the per-collection photo loading performed on mount
    (`Promise.all` over one fetch per configured galaxy, truncation to
    `MAX_PHOTOS_PER_GALAXY`, photo-id synthesis).

Machine strings are modelled as Lean `String` (a list of unicode scalar
values); the characters the handler manipulates are ASCII, where the
JavaScript UTF-16 code-unit order and the scalar-value order coincide.
-/

namespace FloatingMemories

/-! ## PhotoSource: src/app/api/photos/[folder]/route.ts -/

/-- A character kept by the sanitizer regex `[^a-zA-Z0-9_\-]` →  `''`:
exactly the class `[a-zA-Z0-9_-]`. -/
def allowedKeyChar (c : Char) : Bool :=
  ('a'.toNat ≤ c.toNat && c.toNat ≤ 'z'.toNat) ||
  ('A'.toNat ≤ c.toNat && c.toNat ≤ 'Z'.toNat) ||
  ('0'.toNat ≤ c.toNat && c.toNat ≤ '9'.toNat) ||
  c == '_' || c == '-'

/-- `folder.replace(/[^a-zA-Z0-9_\-]/g, '')`: a global single-character-class
replace by the empty string deletes every character outside the class. -/
def sanitizeFolder (s : String) : String :=
  String.mk (s.data.filter allowedKeyChar)

/-- The fixed public-assets root: `path.join(process.cwd(), 'public', 'memories')`. -/
def memoriesRoot (cwd : String) : String :=
  cwd ++ "/public/memories"

/-- `path.join(process.cwd(), 'public', 'memories', safe)`.  `path.join`
drops empty segments; `safe` never contains a path separator (it is a
sanitizer output), so joining is plain concatenation. -/
def resolveDir (cwd safe : String) : String :=
  if safe = "" then memoriesRoot cwd else memoriesRoot cwd ++ "/" ++ safe

/-- The extension allow-list of `IMAGE_EXTS = /\.(jpg|jpeg|png|gif|webp|heic|heif|avif|tiff|tif)$/i`. -/
def IMAGE_EXTS : List String :=
  ["jpg", "jpeg", "png", "gif", "webp", "heic", "heif", "avif", "tiff", "tif"]

/-- ASCII lower-casing, the case canonicalization the non-unicode `i` regex
flag applies to the ASCII letters of the pattern. -/
def asciiLower (c : Char) : Char :=
  if 'A' ≤ c ∧ c ≤ 'Z' then Char.ofNat (c.toNat + 32) else c

/-- `IMAGE_EXTS.test f`: does `f` end, case-insensitively, in a dot followed
by one of the allow-listed extensions? -/
def imageExtTest (f : String) : Bool :=
  IMAGE_EXTS.any (fun e => List.isSuffixOf ("." ++ e).data (f.data.map asciiLower))

/-- Lexicographic comparison of strings by code unit, the comparison
JavaScript's default `Array.prototype.sort` applies (the repository's
filenames are ASCII, where code-unit and scalar-value order agree). -/
def lexLe : List Char → List Char → Bool
  | [], _ => true
  | _ :: _, [] => false
  | a :: as, b :: bs =>
    if a.toNat < b.toNat then true
    else if b.toNat < a.toNat then false
    else lexLe as bs

def strLe (a b : String) : Bool := lexLe a.data b.data

/-- `strLe` as a relation, for the sorting lemmas. -/
def strLeP (a b : String) : Prop := strLe a b = true

instance : DecidableRel strLeP := fun a b =>
  inferInstanceAs (Decidable (strLe a b = true))

/-- `.sort()` with the default comparator: a stable sort by code-unit
order (modelled by insertion sort, extensionally the same function). -/
def sortStrings (l : List String) : List String :=
  List.insertionSort strLeP l

/-- The three observable outcomes of `fs.existsSync` + `fs.readdirSync`. -/
inductive DirContent
  | missing
  | readError
  | present (files : List String)

/-- The body of `GET /api/photos/{folder}`: sanitize, resolve, list, filter,
sort; `[]` for a missing directory and `[]` from the `catch` on any read
failure. -/
def routeBody (cwd folder : String) (fs : String → DirContent) : List String :=
  let safe := sanitizeFolder folder
  let dir := resolveDir cwd safe
  match fs dir with
  | .missing => []
  | .readError => []
  | .present files => sortStrings (files.filter imageExtTest)

/-- The full response: `NextResponse.json(...)` never sets a status, so the
status is always 200, whatever branch produced the body. -/
def routeGET (cwd folder : String) (fs : String → DirContent) : Nat × List String :=
  (200, routeBody cwd folder fs)

/-! ### Sanitization facts (claim C1) -/

theorem sanitizeFolder_data (s : String) :
    (sanitizeFolder s).data = s.data.filter allowedKeyChar := rfl

theorem mem_sanitizeFolder_allowed {c : Char} {s : String}
    (h : c ∈ (sanitizeFolder s).data) : allowedKeyChar c = true :=
  (List.mem_filter.mp h).2

theorem slash_not_mem_sanitizeFolder (s : String) :
    '/' ∉ (sanitizeFolder s).data := by
  intro h
  have := mem_sanitizeFolder_allowed h
  simp [allowedKeyChar] at this

theorem dot_not_mem_sanitizeFolder (s : String) :
    '.' ∉ (sanitizeFolder s).data := by
  intro h
  have := mem_sanitizeFolder_allowed h
  simp [allowedKeyChar] at this

/-- **C1.** The key used to resolve the storage location is the input with
every character outside `[A-Za-z0-9_-]` removed, and the resolved directory
is the assets root itself or a direct child of it named by a
separator-free, dot-free key — it never lies outside the root.  In
particular `"../../etc"` sanitizes to `"etc"`. -/
theorem sanitization_confines_to_root (cwd s : String) :
    (sanitizeFolder s).data = s.data.filter allowedKeyChar ∧
    (resolveDir cwd (sanitizeFolder s) = memoriesRoot cwd ∨
      ∃ k, resolveDir cwd (sanitizeFolder s) = memoriesRoot cwd ++ "/" ++ k ∧
        k ≠ "" ∧ '/' ∉ k.data ∧ '.' ∉ k.data) ∧
    sanitizeFolder "../../etc" = "etc" := by
  refine ⟨rfl, ?_, rfl⟩
  by_cases h : sanitizeFolder s = ""
  · left
    simp [resolveDir, h]
  · right
    exact ⟨sanitizeFolder s, by simp [resolveDir, h], h,
      slash_not_mem_sanitizeFolder s, dot_not_mem_sanitizeFolder s⟩

/-! ### Order facts about the sort comparator -/

theorem lexLe_total : ∀ a b : List Char, lexLe a b = true ∨ lexLe b a = true
  | [], _ => Or.inl rfl
  | _ :: _, [] => Or.inr rfl
  | a :: as, b :: bs => by
    by_cases hab : a.toNat < b.toNat
    · left; simp [lexLe, hab]
    · by_cases hba : b.toNat < a.toNat
      · right; simp [lexLe, hba]
      · rcases lexLe_total as bs with h | h
        · left; simp [lexLe, hab, hba, h]
        · right; simp [lexLe, hab, hba, h]

theorem lexLe_cons_iff {a b : Char} {as bs : List Char} :
    lexLe (a :: as) (b :: bs) = true ↔
      a.toNat < b.toNat ∨ (a.toNat = b.toNat ∧ lexLe as bs = true) := by
  simp only [lexLe]
  split_ifs with h1 h2
  · simp [h1]
  · simp only [Bool.false_eq_true, false_iff]
    rintro (h | ⟨h, -⟩) <;> omega
  · have he : a.toNat = b.toNat := by omega
    simp [he]

theorem lexLe_trans : ∀ a b c : List Char,
    lexLe a b = true → lexLe b c = true → lexLe a c = true
  | [], _, _, _, _ => rfl
  | _ :: _, [], _, hab, _ => by simp [lexLe] at hab
  | _ :: _, _ :: _, [], _, hbc => by simp [lexLe] at hbc
  | a :: as, b :: bs, c :: cs, hab, hbc => by
    rw [lexLe_cons_iff] at hab hbc ⊢
    rcases hab with h1 | ⟨h1, h1'⟩ <;> rcases hbc with h2 | ⟨h2, h2'⟩
    · exact Or.inl (by omega)
    · exact Or.inl (by omega)
    · exact Or.inl (by omega)
    · exact Or.inr ⟨by omega, lexLe_trans as bs cs h1' h2'⟩

instance : IsTotal String strLeP :=
  ⟨fun a b => lexLe_total a.data b.data⟩

instance : IsTrans String strLeP :=
  ⟨fun a b c => lexLe_trans a.data b.data c.data⟩

theorem sortStrings_perm (l : List String) : (sortStrings l).Perm l :=
  List.perm_insertionSort strLeP l

theorem sortStrings_sorted (l : List String) : (sortStrings l).Sorted strLeP :=
  List.sorted_insertionSort strLeP l

/-! ### Listing behaviour (claims C3, C4, C10) -/

/-- **C3.** For a readable directory, the endpoint returns exactly the
filenames whose extension matches the allow-list case-insensitively,
sorted ascending by the default comparator; on the spec's scenario
directory `b.png, a.JPG, .DS_Store, c.txt` it returns
`["a.JPG", "b.png"]`. -/
theorem route_filters_and_sorts (cwd folder : String) (fs : String → DirContent)
    (files : List String)
    (h : fs (resolveDir cwd (sanitizeFolder folder)) = .present files) :
    (∀ f, f ∈ routeBody cwd folder fs ↔ f ∈ files ∧ imageExtTest f = true) ∧
    (routeBody cwd folder fs).Perm (files.filter imageExtTest) ∧
    (routeBody cwd folder fs).Sorted strLeP ∧
    routeBody cwd "special"
        (fun _ => .present ["b.png", "a.JPG", ".DS_Store", "c.txt"]) =
      ["a.JPG", "b.png"] := by
  have hbody : routeBody cwd folder fs = sortStrings (files.filter imageExtTest) := by
    simp [routeBody, h]
  refine ⟨?_, ?_, ?_, rfl⟩
  · intro f
    rw [hbody, (sortStrings_perm _).mem_iff, List.mem_filter]
  · rw [hbody]; exact sortStrings_perm _
  · rw [hbody]; exact sortStrings_sorted _

theorem route_filters_and_sorts_witness :
    routeBody "/app" "special"
        (fun _ => DirContent.present ["b.png", "a.JPG", ".DS_Store", "c.txt"]) =
      ["a.JPG", "b.png"] :=
  (route_filters_and_sorts "/app" "special"
    (fun _ => DirContent.present ["b.png", "a.JPG", ".DS_Store", "c.txt"])
    ["b.png", "a.JPG", ".DS_Store", "c.txt"] rfl).2.2.2

/-- **C4.** Every response has status 200 and a list body; a missing
directory or a read failure yields the empty list — no distinct error
status or error value ever reaches the caller. -/
theorem route_always_200 (cwd folder : String) (fs : String → DirContent) :
    (routeGET cwd folder fs).1 = 200 ∧
    (routeGET cwd folder fs).2 = routeBody cwd folder fs ∧
    (fs (resolveDir cwd (sanitizeFolder folder)) = .missing →
      routeBody cwd folder fs = []) ∧
    (fs (resolveDir cwd (sanitizeFolder folder)) = .readError →
      routeBody cwd folder fs = []) := by
  refine ⟨rfl, rfl, ?_, ?_⟩ <;> intro h <;> simp [routeBody, h]

theorem route_always_200_witness :
    routeBody "/app" "nosuch" (fun _ => DirContent.missing) = [] ∧
    routeBody "/app" "locked" (fun _ => DirContent.readError) = [] :=
  ⟨(route_always_200 "/app" "nosuch" (fun _ => DirContent.missing)).2.2.1 rfl,
   (route_always_200 "/app" "locked" (fun _ => DirContent.readError)).2.2.2 rfl⟩

theorem strLe_lower_upper_false {f g : String} {cf cg : Char}
    {tf tg : List Char}
    (hf : f.data = cf :: tf) (hg : g.data = cg :: tg)
    (hlt : cf.toNat < cg.toNat) : strLe g f = false := by
  simp only [strLe, hf, hg, lexLe]
  have h1 : ¬ cg.toNat < cf.toNat := by omega
  rw [if_neg h1, if_pos hlt]

/-- **C10.** The listing order is the default comparator's code-unit
order, hence case-sensitive: an eligible filename starting with an
uppercase ASCII letter sorts strictly before one starting with a
lowercase ASCII letter, even though extension eligibility is matched
case-insensitively. -/
theorem uppercase_sorts_before_lowercase
    (cwd folder : String) (fs : String → DirContent) (files : List String)
    (f g : String) (cf cg : Char) (tf tg : List Char)
    (hf : f.data = cf :: tf) (hg : g.data = cg :: tg)
    (hcf : 65 ≤ cf.toNat ∧ cf.toNat ≤ 90)
    (hcg : 97 ≤ cg.toNat ∧ cg.toNat ≤ 122)
    (hfe : imageExtTest f = true) (hge : imageExtTest g = true)
    (hfm : f ∈ files) (hgm : g ∈ files)
    (h : fs (resolveDir cwd (sanitizeFolder folder)) = .present files) :
    f ∈ routeBody cwd folder fs ∧ g ∈ routeBody cwd folder fs ∧
    (routeBody cwd folder fs).indexOf f < (routeBody cwd folder fs).indexOf g := by
  have hforder := route_filters_and_sorts cwd folder fs files h
  have hfb : f ∈ routeBody cwd folder fs := (hforder.1 f).mpr ⟨hfm, hfe⟩
  have hgb : g ∈ routeBody cwd folder fs := (hforder.1 g).mpr ⟨hgm, hge⟩
  refine ⟨hfb, hgb, ?_⟩
  have hlt : cf.toNat < cg.toNat := by omega
  have hne : f ≠ g := by
    intro hfg
    rw [hfg] at hf
    rw [hg] at hf
    injection hf with he _
    have := congrArg Char.toNat he
    omega
  have hgf : strLe g f = false := strLe_lower_upper_false hf hg hlt
  set body := routeBody cwd folder fs with hb
  have hif : body.indexOf f < body.length := List.indexOf_lt_length.mpr hfb
  have hig : body.indexOf g < body.length := List.indexOf_lt_length.mpr hgb
  by_contra hle
  push_neg at hle
  have hij : body.indexOf g < body.indexOf f := by
    rcases Nat.lt_or_ge (body.indexOf g) (body.indexOf f) with h' | h'
    · exact h'
    · exfalso
      have heq : body.indexOf f = body.indexOf g := Nat.le_antisymm h' hle
      have hfg : f = g := by
        have h1 := List.indexOf_get (a := f) (l := body) hif
        have h2 := List.indexOf_get (a := g) (l := body) hig
        rw [← h1, ← h2]
        congr 1
        exact Fin.ext heq
      exact hne hfg
  have hpair := List.pairwise_iff_get.mp hforder.2.2.1
  have := hpair ⟨body.indexOf g, hig⟩ ⟨body.indexOf f, hif⟩ hij
  rw [List.indexOf_get hig, List.indexOf_get hif] at this
  rw [strLeP, hgf] at this
  exact Bool.false_ne_true this

theorem uppercase_sorts_before_lowercase_witness :
    "Z.png" ∈ routeBody "/app" "d" (fun _ => DirContent.present ["a.png", "Z.png"]) ∧
    "a.png" ∈ routeBody "/app" "d" (fun _ => DirContent.present ["a.png", "Z.png"]) ∧
    (routeBody "/app" "d" (fun _ => DirContent.present ["a.png", "Z.png"])).indexOf "Z.png" <
      (routeBody "/app" "d" (fun _ => DirContent.present ["a.png", "Z.png"])).indexOf "a.png" :=
  uppercase_sorts_before_lowercase "/app" "d"
    (fun _ => DirContent.present ["a.png", "Z.png"]) ["a.png", "Z.png"]
    "Z.png" "a.png" 'Z' 'a' ".png".data ".png".data
    rfl rfl (by decide) (by decide) (by decide) (by decide)
    (by decide) (by decide) rfl

/-! ## Data model: src/unnamed/part_000 (types, configs, photo loading) -/

/-- `type ViewLevel = 'universe' | 'cluster' | 'photo'`.  `universe` is a
Lean keyword, so that constructor is spelled `universeV`. -/
inductive ViewLevel
  | universeV
  | cluster
  | photo
  deriving DecidableEq

/-- `interface PhotoMetadata`. -/
structure PhotoMetadata where
  id : String
  url : String
  title : String
  date : String
  description : String
  deriving DecidableEq

/-- The static per-galaxy fields of `interface GalaxyData`
(`Omit<GalaxyData, 'photos'>`, the element type of `GALAXY_CONFIGS`).
The presentation-only `position`/`rotation` coordinates feed the camera
rig only and never enter photo construction or navigation, so they are
not carried here. -/
structure GalaxyConfig where
  id : String
  name : String
  color : String
  folder : String
  photoTitle : String
  photoDate : String
  photoDesc : String
  deriving DecidableEq

/-- `interface GalaxyData`: the static config plus the `photos` field
populated at runtime. -/
structure GalaxyData extends GalaxyConfig where
  photos : List PhotoMetadata
  deriving DecidableEq

def MAX_PHOTOS_PER_GALAXY : Nat := 8

/-- `GALAXY_CONFIGS` (names and descriptive text verbatim). -/
def GALAXY_CONFIGS : List GalaxyConfig :=
  [ { id := "special", name := "Special Moments 🎉", color := "#ffaa00",
      folder := "special", photoTitle := "Special Moment", photoDate := "2025",
      photoDesc := "Those rare, golden moments that make life extraordinary. Times we want to hold onto forever." },
    { id := "style", name := "Style & Looks ✨", color := "#00aaff",
      folder := "style", photoTitle := "Style Snapshot", photoDate := "2024-2025",
      photoDesc := "Fashion experiments, new haircuts, and style evolution. Confidence captured." },
    { id := "travel", name := "Travel ✈️", color := "#aa00ff",
      folder := "travel", photoTitle := "Adventure", photoDate := "Dec 2023",
      photoDesc := "Exploring new places around the world. Every street corner had a story." },
    { id := "cafes", name := "Coffee Shops ☕", color := "#aa6644",
      folder := "cafes", photoTitle := "Café Moment", photoDate := "Jan 2024",
      photoDesc := "Caffeine-fueled adventures. Finding the perfect corner in every city." },
    { id := "food", name := "Food & Taste 🍜", color := "#88ff44",
      folder := "food", photoTitle := "Delicious Moment", photoDate := "2024",
      photoDesc := "Every meal is a memory. From street food to home cooking, a journey through flavours." },
    { id := "climbing", name := "Climbing 🧗", color := "#00ccff",
      folder := "climbing", photoTitle := "Summit", photoDate := "2024",
      photoDesc := "Reaching new heights, one hold at a time. The wall, the sweat, and the view from the top." },
    { id := "spring", name := "Spring & Sakura 🌸", color := "#ffaac8",
      folder := "spring", photoTitle := "Blossom", photoDate := "Spring 2024",
      photoDesc := "Cherry blossoms, warm breezes, and the brief beauty of spring. A season that never lasts long enough." },
    { id := "cooking", name := "Cooking 👨‍🍳", color := "#ff00aa",
      folder := "cooking", photoTitle := "Recipe", photoDate := "2024",
      photoDesc := "From prep to plating — the art of turning ingredients into something special." } ]

/-- The photo materialization in `GalleryPage`'s mount effect:
`files.slice(0, MAX_PHOTOS_PER_GALAXY).map((filename, i) => ({...}))`. -/
def buildPhotos (cfg : GalaxyConfig) (files : List String) : List PhotoMetadata :=
  (files.take MAX_PHOTOS_PER_GALAXY).mapIdx fun i filename =>
    { id := cfg.id ++ "-p" ++ toString i
      url := "/memories/" ++ cfg.folder ++ "/" ++ filename
      title := cfg.photoTitle ++ " " ++ toString (i + 1)
      date := cfg.photoDate
      description := cfg.photoDesc }

/-- One arm of the `Promise.all` map: `{...cfg, photos}` on success and
`{...cfg, photos: []}` from the per-galaxy `catch`.  `none` models a
fetch/parse failure. -/
def loadGalaxy (cfg : GalaxyConfig) (result : Option (List String)) : GalaxyData :=
  match result with
  | some files => { toGalaxyConfig := cfg, photos := buildPhotos cfg files }
  | none => { toGalaxyConfig := cfg, photos := [] }

/-- The initial `galaxies` state: `GALAXY_CONFIGS.map(cfg => ({...cfg, photos: []}))`. -/
def initGalaxies (configs : List GalaxyConfig) : List GalaxyData :=
  configs.map fun cfg => { toGalaxyConfig := cfg, photos := [] }

/-- The folders fetched on mount, one request per configured galaxy:
`GALAXY_CONFIGS.map(cfg => fetch(/api/photos/{cfg.folder}))`. -/
def requestedFolders (configs : List GalaxyConfig) : List String :=
  configs.map fun cfg => cfg.folder

/-- The single argument `Promise.all` hands to `setGalaxies`, with
`results i` the outcome of the `i`-th galaxy's fetch. -/
def loadAllGalaxies (configs : List GalaxyConfig)
    (results : Nat → Option (List String)) : List GalaxyData :=
  configs.mapIdx fun i cfg => loadGalaxy cfg (results i)

/-- The successive values of the `galaxies` state the mount effect
produces: the initial all-empty list, then the one batched
`setGalaxies` commit fired after `Promise.all` settles.  No other
`setGalaxies` call exists. -/
def observableGalaxyStates (configs : List GalaxyConfig)
    (results : Nat → Option (List String)) : List (List GalaxyData) :=
  [initGalaxies configs, loadAllGalaxies configs results]

/-! ## NavigationStateMachine: the level / galaxy / photo state -/

/-- The navigation triple held in `GalleryPage` state:
`level`, `activeGalaxyId`, `activePhotoId`. -/
structure NavState where
  level : ViewLevel
  activeGalaxyId : Option String
  activePhotoId : Option String
  deriving DecidableEq

/-- `useState<ViewLevel>('universe')`, `useState<string | null>(null)` twice. -/
def initialNavState : NavState :=
  { level := .universeV, activeGalaxyId := none, activePhotoId := none }

/-- `galaxies.find(g => g.id === activeGalaxyId) || null` (`null` id
matches nothing). -/
def findGalaxy (galaxies : List GalaxyData) : Option String → Option GalaxyData
  | none => none
  | some gid => galaxies.find? fun g => g.id == gid

/-- `photos.findIndex(p => p.id === activePhotoId)`: JavaScript's `-1`
for "not found" is kept, so the result is an integer. -/
def photoFindIndex (photos : List PhotoMetadata) : Option String → Int
  | none => -1
  | some pid =>
    match photos.findIdx? (fun p => p.id == pid) with
    | some i => (i : Int)
    | none => -1

/-- `setActivePhotoId(photos[j].id)`; the guards of every caller keep
`j` in range, so the out-of-range arm is unreachable. -/
def advanceTo (g : GalaxyData) (j : Int) (s : NavState) : NavState :=
  match g.photos.get? j.toNat with
  | some p => { s with activePhotoId := some p.id }
  | none => s

/-- The body of the galaxy click's `setTimeout`:
`setActiveGalaxyId(galaxy.id); setLevel('cluster')` — `activePhotoId`
is left untouched. -/
def warpCommit (gid : String) (s : NavState) : NavState :=
  { level := .cluster, activeGalaxyId := some gid, activePhotoId := s.activePhotoId }

/-- `setTimeout(..., 600)`. -/
def WARP_DELAY_MS : Nat := 600

/-- The user stimuli that reach the navigation state: galaxy click
(its deferred commit), photo-card click, the `Escape`/arrow key
handler, and the back / Prev / Next HTML buttons. -/
inductive NavAction
  | galaxyClick (gid : String)
  | photoClick (pid : String)
  | escapeKey
  | arrowRight
  | arrowLeft
  | backButton
  | nextButton
  | prevButton

/-- One event-handler invocation.  Guards record when the source can
fire the handler at all: galaxies are clickable only while the universe
level renders them, photo cards call `onCardClick` only at `cluster`
level and only for photos of the active galaxy, the back button is
rendered only off-universe, and the Prev/Next buttons only while
`activePhoto` resolves. -/
def navStep (galaxies : List GalaxyData) (a : NavAction) (s : NavState) : NavState :=
  match a with
  | .galaxyClick gid =>
    if s.level = .universeV ∧ gid ∈ (galaxies.map fun g => g.id) then
      warpCommit gid s
    else s
  | .photoClick pid =>
    match findGalaxy galaxies s.activeGalaxyId with
    | some g =>
      if s.level = .cluster ∧ pid ∈ (g.photos.map fun p => p.id) then
        { s with level := .photo, activePhotoId := some pid }
      else s
    | none => s
  | .escapeKey =>
    if s.level = .photo then { s with level := .cluster, activePhotoId := none }
    else if s.level = .cluster then { s with level := .universeV, activeGalaxyId := none }
    else s
  | .arrowRight =>
    match findGalaxy galaxies s.activeGalaxyId, s.activePhotoId with
    | some g, some pid =>
      if s.level = .photo ∧ pid ≠ "" then
        if photoFindIndex g.photos (some pid) < (g.photos.length : Int) - 1 then
          advanceTo g (photoFindIndex g.photos (some pid) + 1) s
        else s
      else s
    | _, _ => s
  | .arrowLeft =>
    match findGalaxy galaxies s.activeGalaxyId, s.activePhotoId with
    | some g, some pid =>
      if s.level = .photo ∧ pid ≠ "" then
        if 0 < photoFindIndex g.photos (some pid) then
          advanceTo g (photoFindIndex g.photos (some pid) - 1) s
        else s
      else s
    | _, _ => s
  | .backButton =>
    if s.level = .universeV then s
    else if s.level = .photo then { s with level := .cluster, activePhotoId := none }
    else { s with level := .universeV, activeGalaxyId := none }
  | .nextButton =>
    match findGalaxy galaxies s.activeGalaxyId with
    | some g =>
      if s.level = .photo ∧
          (g.photos.find? fun p => some p.id == s.activePhotoId).isSome then
        if photoFindIndex g.photos s.activePhotoId < (g.photos.length : Int) - 1 then
          advanceTo g (photoFindIndex g.photos s.activePhotoId + 1) s
        else s
      else s
    | none => s
  | .prevButton =>
    match findGalaxy galaxies s.activeGalaxyId with
    | some g =>
      if s.level = .photo ∧
          (g.photos.find? fun p => some p.id == s.activePhotoId).isSome then
        if 0 < photoFindIndex g.photos s.activePhotoId then
          advanceTo g (photoFindIndex g.photos s.activePhotoId - 1) s
        else s
      else s
    | none => s

/-- Replaying a sequence of stimuli. -/
def runNav (galaxies : List GalaxyData) (acts : List NavAction) (s : NavState) : NavState :=
  acts.foldl (fun t a => navStep galaxies a t) s

/-- The inductive strengthening of the navigation invariant. -/
def NavInv (s : NavState) : Prop :=
  (s.level = .universeV → s.activeGalaxyId = none ∧ s.activePhotoId = none) ∧
  (s.level = .cluster → s.activePhotoId = none) ∧
  (s.level = .photo → s.activeGalaxyId ≠ none)

theorem findGalaxy_ne_none {galaxies : List GalaxyData} {gid? : Option String}
    {g : GalaxyData} (h : findGalaxy galaxies gid? = some g) : gid? ≠ none := by
  cases gid? with
  | none => simp [findGalaxy] at h
  | some gid => simp

theorem advanceTo_level (g : GalaxyData) (j : Int) (s : NavState) :
    (advanceTo g j s).level = s.level ∧
    (advanceTo g j s).activeGalaxyId = s.activeGalaxyId := by
  unfold advanceTo
  cases g.photos.get? j.toNat <;> simp

theorem navInv_init : NavInv initialNavState := by
  refine ⟨fun _ => ⟨rfl, rfl⟩, fun h => ?_, fun h => ?_⟩ <;>
    simp [initialNavState] at h

theorem warpCommit_inv {gid : String} {s : NavState}
    (hp : s.activePhotoId = none) : NavInv (warpCommit gid s) := by
  refine ⟨fun h => ?_, fun _ => hp, fun _ => ?_⟩
  · exact absurd h (by simp [warpCommit])
  · simp [warpCommit]

theorem advanceTo_inv {g : GalaxyData} {j : Int} {s : NavState}
    (hl : s.level = .photo) (hg : s.activeGalaxyId ≠ none) :
    NavInv (advanceTo g j s) := by
  obtain ⟨he1, he2⟩ := advanceTo_level g j s
  refine ⟨fun hu => ?_, fun hc => ?_, fun _ => ?_⟩
  · rw [he1, hl] at hu; exact absurd hu (by simp)
  · rw [he1, hl] at hc; exact absurd hc (by simp)
  · rw [he2]; exact hg

theorem navStep_inv (galaxies : List GalaxyData) (a : NavAction) {s : NavState}
    (h : NavInv s) : NavInv (navStep galaxies a s) := by
  obtain ⟨h1, h2, h3⟩ := h
  cases a with
  | galaxyClick gid =>
    by_cases hc : s.level = .universeV ∧ gid ∈ (galaxies.map fun g => g.id)
    · rw [navStep, if_pos hc]
      exact warpCommit_inv (h1 hc.1).2
    · rw [navStep, if_neg hc]; exact ⟨h1, h2, h3⟩
  | photoClick pid =>
    simp only [navStep]
    cases hg : findGalaxy galaxies s.activeGalaxyId with
    | none => exact ⟨h1, h2, h3⟩
    | some g =>
      dsimp only
      by_cases hc : s.level = .cluster ∧ pid ∈ (g.photos.map fun p => p.id)
      · rw [if_pos hc]
        refine ⟨fun hl => absurd hl (by simp), fun hl => absurd hl (by simp),
          fun _ => ?_⟩
        simpa using findGalaxy_ne_none hg
      · rw [if_neg hc]; exact ⟨h1, h2, h3⟩
  | escapeKey =>
    simp only [navStep]
    by_cases hp : s.level = .photo
    · rw [if_pos hp]
      exact ⟨fun hl => absurd hl (by simp), fun _ => rfl,
        fun hl => absurd hl (by simp)⟩
    · rw [if_neg hp]
      by_cases hcl : s.level = .cluster
      · rw [if_pos hcl]
        exact ⟨fun _ => ⟨rfl, h2 hcl⟩, fun hl => absurd hl (by simp),
          fun hl => absurd hl (by simp)⟩
      · rw [if_neg hcl]; exact ⟨h1, h2, h3⟩
  | backButton =>
    simp only [navStep]
    by_cases hu : s.level = .universeV
    · rw [if_pos hu]; exact ⟨h1, h2, h3⟩
    · rw [if_neg hu]
      by_cases hp : s.level = .photo
      · rw [if_pos hp]
        exact ⟨fun hl => absurd hl (by simp), fun _ => rfl,
          fun hl => absurd hl (by simp)⟩
      · rw [if_neg hp]
        have hcl : s.level = .cluster := by
          cases hl : s.level <;> simp_all
        exact ⟨fun _ => ⟨rfl, h2 hcl⟩, fun hl => absurd hl (by simp),
          fun hl => absurd hl (by simp)⟩
  | arrowRight =>
    simp only [navStep]
    cases hg : findGalaxy galaxies s.activeGalaxyId with
    | none => exact ⟨h1, h2, h3⟩
    | some g =>
      cases hp : s.activePhotoId with
      | none => exact ⟨h1, h2, h3⟩
      | some pid =>
        dsimp only
        split_ifs with hc hidx
        · exact advanceTo_inv hc.1 (h3 hc.1)
        · exact ⟨h1, h2, h3⟩
        · exact ⟨h1, h2, h3⟩
  | arrowLeft =>
    simp only [navStep]
    cases hg : findGalaxy galaxies s.activeGalaxyId with
    | none => exact ⟨h1, h2, h3⟩
    | some g =>
      cases hp : s.activePhotoId with
      | none => exact ⟨h1, h2, h3⟩
      | some pid =>
        dsimp only
        split_ifs with hc hidx
        · exact advanceTo_inv hc.1 (h3 hc.1)
        · exact ⟨h1, h2, h3⟩
        · exact ⟨h1, h2, h3⟩
  | nextButton =>
    simp only [navStep]
    cases hg : findGalaxy galaxies s.activeGalaxyId with
    | none => exact ⟨h1, h2, h3⟩
    | some g =>
      dsimp only
      split_ifs with hc hidx
      · exact advanceTo_inv hc.1 (h3 hc.1)
      · exact ⟨h1, h2, h3⟩
      · exact ⟨h1, h2, h3⟩
  | prevButton =>
    simp only [navStep]
    cases hg : findGalaxy galaxies s.activeGalaxyId with
    | none => exact ⟨h1, h2, h3⟩
    | some g =>
      dsimp only
      split_ifs with hc hidx
      · exact advanceTo_inv hc.1 (h3 hc.1)
      · exact ⟨h1, h2, h3⟩
      · exact ⟨h1, h2, h3⟩

theorem runNav_inv (galaxies : List GalaxyData) (acts : List NavAction) :
    ∀ {s : NavState}, NavInv s → NavInv (runNav galaxies acts s) := by
  induction acts with
  | nil => intro s h; exact h
  | cons a as ih => intro s h; exact ih (navStep_inv galaxies a h)

/-! ## Demo data for concrete runs -/

/-- A fully loaded registry: every fetch succeeded with three files. -/
def demoGalaxies : List GalaxyData :=
  loadAllGalaxies GALAXY_CONFIGS fun _ => some ["a.jpg", "b.jpg", "c.jpg"]

/-- A single loaded travel galaxy (photos `travel-p0 … travel-p2`). -/
def demoTravel : GalaxyData :=
  loadGalaxy
    { id := "travel", name := "Travel ✈️", color := "#aa00ff",
      folder := "travel", photoTitle := "Adventure", photoDate := "Dec 2023",
      photoDesc := "Exploring new places around the world. Every street corner had a story." }
    (some ["a.jpg", "b.jpg", "c.jpg"])

def demoSolo : List GalaxyData := [demoTravel]

/-! ## Navigation claims -/

/-- **C2.** After every sequence of navigation transitions from the initial
Universe state, a non-null `activePhotoId` implies a non-null
`activeGalaxyId`, and a non-null `activeGalaxyId` implies the level is not
Universe. -/
theorem navigation_invariant (galaxies : List GalaxyData) (acts : List NavAction) :
    ((runNav galaxies acts initialNavState).activePhotoId ≠ none →
      (runNav galaxies acts initialNavState).activeGalaxyId ≠ none) ∧
    ((runNav galaxies acts initialNavState).activeGalaxyId ≠ none →
      (runNav galaxies acts initialNavState).level ≠ .universeV) := by
  obtain ⟨h1, h2, h3⟩ := runNav_inv galaxies acts navInv_init
  constructor
  · intro hp
    cases hl : (runNav galaxies acts initialNavState).level with
    | universeV => exact absurd (h1 hl).2 hp
    | cluster => exact absurd (h2 hl) hp
    | photo => exact h3 hl
  · intro hg hl
    exact hg (h1 hl).1

theorem navigation_invariant_witness :
    (runNav demoGalaxies
        [NavAction.galaxyClick "travel", NavAction.photoClick "travel-p0"]
        initialNavState).activeGalaxyId ≠ none ∧
    (runNav demoGalaxies
        [NavAction.galaxyClick "travel", NavAction.photoClick "travel-p0"]
        initialNavState).level ≠ ViewLevel.universeV :=
  ⟨(navigation_invariant demoGalaxies
      [NavAction.galaxyClick "travel", NavAction.photoClick "travel-p0"]).1
      (by decide),
   (navigation_invariant demoGalaxies
      [NavAction.galaxyClick "travel", NavAction.photoClick "travel-p0"]).2
      (by decide)⟩

/-- **C8.** `back()` (Escape key and the back button alike): from Photo to
Collection clearing `activePhotoId` and keeping `activeGalaxyId`; from
Collection to Universe clearing `activeGalaxyId`; exact no-op at
Universe. -/
theorem back_behaviour (galaxies : List GalaxyData) (s : NavState) :
    (s.level = .photo →
      navStep galaxies .escapeKey s =
        { s with level := .cluster, activePhotoId := none } ∧
      navStep galaxies .backButton s =
        { s with level := .cluster, activePhotoId := none }) ∧
    (s.level = .cluster →
      navStep galaxies .escapeKey s =
        { s with level := .universeV, activeGalaxyId := none } ∧
      navStep galaxies .backButton s =
        { s with level := .universeV, activeGalaxyId := none }) ∧
    (s.level = .universeV →
      navStep galaxies .escapeKey s = s ∧ navStep galaxies .backButton s = s) := by
  refine ⟨fun hl => ?_, fun hl => ?_, fun hl => ?_⟩ <;>
    constructor <;> simp [navStep, hl]

theorem back_behaviour_witness :
    navStep [] NavAction.escapeKey
        { level := ViewLevel.photo, activeGalaxyId := some "travel",
          activePhotoId := some "travel-p2" } =
      { level := ViewLevel.cluster, activeGalaxyId := some "travel",
        activePhotoId := none } ∧
    navStep [] NavAction.backButton
        { level := ViewLevel.universeV, activeGalaxyId := none,
          activePhotoId := none } =
      { level := ViewLevel.universeV, activeGalaxyId := none,
        activePhotoId := none } :=
  ⟨((back_behaviour []
      { level := ViewLevel.photo, activeGalaxyId := some "travel",
        activePhotoId := some "travel-p2" }).1 rfl).1,
   ((back_behaviour []
      { level := ViewLevel.universeV, activeGalaxyId := none,
        activePhotoId := none }).2.2 rfl).2⟩

/-- The pieces of component state the galaxy-click handler touches besides
navigation: `warpActive` (Scene state) and `galaxyLoading` (GalleryPage
state, set through `onGalaxyEnter`). -/
structure SceneUIState where
  nav : NavState
  warpActive : Bool
  galaxyLoading : Bool
  deriving DecidableEq

/-- The synchronous body of the galaxy click handler:
`onGalaxyEnter(); setWarpActive(true); setTimeout(..., 600)` — it never
writes the navigation triple. -/
def galaxyClickImmediate (u : SceneUIState) : SceneUIState :=
  { u with galaxyLoading := true, warpActive := true }

/-- The `setTimeout` callback, run once the 600 ms delay elapses: commits
the navigation change and clears the warp flag. -/
def warpTimeoutFire (gid : String) (u : SceneUIState) : SceneUIState :=
  { u with nav := warpCommit gid u.nav, warpActive := false }

/-- **C5.** A galaxy click from a reachable Universe-level state changes no
navigation state synchronously; the commit happens in the timer callback
scheduled at the fixed 600 ms warp delay, and the committed state is
exactly `{level: Collection, activeCollectionId: gid, activePhotoId: null}`. -/
theorem enterCollection_deferred (galaxies : List GalaxyData)
    (acts : List NavAction) (gid : String) (w l : Bool)
    (hu : (runNav galaxies acts initialNavState).level = .universeV) :
    (galaxyClickImmediate ⟨runNav galaxies acts initialNavState, w, l⟩).nav =
      runNav galaxies acts initialNavState ∧
    WARP_DELAY_MS = 600 ∧
    (warpTimeoutFire gid
        (galaxyClickImmediate ⟨runNav galaxies acts initialNavState, w, l⟩)).nav =
      { level := .cluster, activeGalaxyId := some gid, activePhotoId := none } := by
  refine ⟨rfl, rfl, ?_⟩
  have h := ((runNav_inv galaxies acts navInv_init).1 hu).2
  simp [warpTimeoutFire, galaxyClickImmediate, warpCommit, h]

theorem enterCollection_deferred_witness :
    (galaxyClickImmediate ⟨initialNavState, false, false⟩).nav = initialNavState ∧
    WARP_DELAY_MS = 600 ∧
    (warpTimeoutFire "travel"
        (galaxyClickImmediate ⟨initialNavState, false, false⟩)).nav =
      { level := ViewLevel.cluster, activeGalaxyId := some "travel",
        activePhotoId := none } :=
  enterCollection_deferred [] [] "travel" false false rfl

/-- **C7.** At the Photo level with the current photo at index `i` of the
active collection's photo list: ArrowRight and the Next button advance to
index `i + 1` when it exists and are exact no-ops at the last index;
ArrowLeft and the Prev button move to `i - 1` when `0 < i` and are exact
no-ops at index 0.  The step function is total, so no transition throws,
and the no-ops show no wrap-around occurs. -/
theorem next_prev_clamped (galaxies : List GalaxyData) (s : NavState)
    (g : GalaxyData) (pid : String) (i : Nat)
    (hg : findGalaxy galaxies s.activeGalaxyId = some g)
    (hl : s.level = .photo)
    (hp : s.activePhotoId = some pid) (hpne : pid ≠ "")
    (hi : g.photos.findIdx? (fun p => p.id == pid) = some i) :
    (∀ hs : i + 1 < g.photos.length,
      navStep galaxies .arrowRight s =
        { s with activePhotoId := some (g.photos.get ⟨i + 1, hs⟩).id } ∧
      navStep galaxies .nextButton s =
        { s with activePhotoId := some (g.photos.get ⟨i + 1, hs⟩).id }) ∧
    (i + 1 = g.photos.length →
      navStep galaxies .arrowRight s = s ∧ navStep galaxies .nextButton s = s) ∧
    (∀ _hpos : 0 < i, ∀ hm : i - 1 < g.photos.length,
      navStep galaxies .arrowLeft s =
        { s with activePhotoId := some (g.photos.get ⟨i - 1, hm⟩).id } ∧
      navStep galaxies .prevButton s =
        { s with activePhotoId := some (g.photos.get ⟨i - 1, hm⟩).id }) ∧
    (i = 0 →
      navStep galaxies .arrowLeft s = s ∧ navStep galaxies .prevButton s = s) := by
  have hidx : photoFindIndex g.photos (some pid) = (i : Int) := by
    simp [photoFindIndex, hi]
  have hpred : (fun p : PhotoMetadata => some p.id == s.activePhotoId) =
      fun p => p.id == pid := by
    funext p; rw [hp]; rfl
  have hfind : (g.photos.find? fun p => some p.id == s.activePhotoId).isSome = true := by
    rw [hpred]
    have : (g.photos.findIdx? fun p => p.id == pid).isSome = true := by
      rw [hi]; rfl
    rw [List.findIdx?_isSome] at this
    rw [List.find?_isSome]
    obtain ⟨x, hx, hpx⟩ := List.any_eq_true.mp this
    exact ⟨x, hx, hpx⟩
  have harr : navStep galaxies .arrowRight s =
      if photoFindIndex g.photos (some pid) < (g.photos.length : Int) - 1 then
        advanceTo g (photoFindIndex g.photos (some pid) + 1) s
      else s := by
    simp only [navStep, hg, hp]
    rw [if_pos ⟨hl, hpne⟩]
  have hnxt : navStep galaxies .nextButton s =
      if photoFindIndex g.photos s.activePhotoId < (g.photos.length : Int) - 1 then
        advanceTo g (photoFindIndex g.photos s.activePhotoId + 1) s
      else s := by
    simp only [navStep, hg]
    rw [if_pos ⟨hl, hfind⟩]
  have hleft : navStep galaxies .arrowLeft s =
      if 0 < photoFindIndex g.photos (some pid) then
        advanceTo g (photoFindIndex g.photos (some pid) - 1) s
      else s := by
    simp only [navStep, hg, hp]
    rw [if_pos ⟨hl, hpne⟩]
  have hprv : navStep galaxies .prevButton s =
      if 0 < photoFindIndex g.photos s.activePhotoId then
        advanceTo g (photoFindIndex g.photos s.activePhotoId - 1) s
      else s := by
    simp only [navStep, hg]
    rw [if_pos ⟨hl, hfind⟩]
  refine ⟨fun hs => ?_, fun hlast => ?_, fun hpos hm => ?_, fun h0 => ?_⟩
  · have hc : photoFindIndex g.photos (some pid) < (g.photos.length : Int) - 1 := by
      rw [hidx]; omega
    have hadv : advanceTo g (photoFindIndex g.photos (some pid) + 1) s =
        { s with activePhotoId := some (g.photos.get ⟨i + 1, hs⟩).id } := by
      rw [hidx]
      have ht : ((i : Int) + 1).toNat = i + 1 := by omega
      simp [advanceTo, ht, List.getElem?_eq_getElem hs, List.get_eq_getElem]
    exact ⟨by rw [harr, if_pos hc, hadv], by rw [hnxt, hp, if_pos hc, hadv]⟩
  · have hc : ¬ photoFindIndex g.photos (some pid) < (g.photos.length : Int) - 1 := by
      rw [hidx]; omega
    exact ⟨by rw [harr, if_neg hc], by rw [hnxt, hp, if_neg hc]⟩
  · have hc : 0 < photoFindIndex g.photos (some pid) := by
      rw [hidx]; exact_mod_cast hpos
    have hadv : advanceTo g (photoFindIndex g.photos (some pid) - 1) s =
        { s with activePhotoId := some (g.photos.get ⟨i - 1, hm⟩).id } := by
      rw [hidx]
      have ht : ((i : Int) - 1).toNat = i - 1 := by omega
      simp [advanceTo, ht, List.getElem?_eq_getElem hm, List.get_eq_getElem]
    exact ⟨by rw [hleft, if_pos hc, hadv], by rw [hprv, hp, if_pos hc, hadv]⟩
  · have hc : ¬ 0 < photoFindIndex g.photos (some pid) := by
      rw [hidx]; omega
    exact ⟨by rw [hleft, if_neg hc], by rw [hprv, hp, if_neg hc]⟩

theorem next_prev_clamped_witness :
    navStep demoSolo NavAction.arrowRight
        { level := ViewLevel.photo, activeGalaxyId := some "travel",
          activePhotoId := some "travel-p1" } =
      { level := ViewLevel.photo, activeGalaxyId := some "travel",
        activePhotoId := some "travel-p2" } ∧
    navStep demoSolo NavAction.nextButton
        { level := ViewLevel.photo, activeGalaxyId := some "travel",
          activePhotoId := some "travel-p2" } =
      { level := ViewLevel.photo, activeGalaxyId := some "travel",
        activePhotoId := some "travel-p2" } ∧
    navStep demoSolo NavAction.prevButton
        { level := ViewLevel.photo, activeGalaxyId := some "travel",
          activePhotoId := some "travel-p0" } =
      { level := ViewLevel.photo, activeGalaxyId := some "travel",
        activePhotoId := some "travel-p0" } :=
  ⟨((next_prev_clamped demoSolo
      { level := ViewLevel.photo, activeGalaxyId := some "travel",
        activePhotoId := some "travel-p1" }
      demoTravel "travel-p1" 1 (by decide) rfl rfl (by decide)
      (by decide)).1 (by decide)).1,
   ((next_prev_clamped demoSolo
      { level := ViewLevel.photo, activeGalaxyId := some "travel",
        activePhotoId := some "travel-p2" }
      demoTravel "travel-p2" 2 (by decide) rfl rfl (by decide)
      (by decide)).2.1 (by decide)).2,
   ((next_prev_clamped demoSolo
      { level := ViewLevel.photo, activeGalaxyId := some "travel",
        activePhotoId := some "travel-p0" }
      demoTravel "travel-p0" 0 (by decide) rfl rfl (by decide)
      (by decide)).2.2.2 rfl).2⟩

/-! ## Registry loading claims -/

/-- **C9.** Exactly `min(length, 8)` Photo entities are materialized from a
fetched filename list — entries beyond the cap are never constructed —
and the `i`-th one has id `{collectionId}-p{i}`. -/
theorem photos_capped_and_indexed (cfg : GalaxyConfig) (files : List String) :
    (buildPhotos cfg files).length = min files.length MAX_PHOTOS_PER_GALAXY ∧
    ∀ i : Nat, ((buildPhotos cfg files)[i]?.map fun p => p.id) =
      if i < min files.length MAX_PHOTOS_PER_GALAXY then
        some (cfg.id ++ "-p" ++ toString i)
      else none := by
  constructor
  · simp [buildPhotos, Nat.min_comm]
  · intro i
    by_cases hi : i < min files.length MAX_PHOTOS_PER_GALAXY
    · rw [if_pos hi]
      have hif : i < files.length := lt_of_lt_of_le hi (min_le_left _ _)
      have hit : i < MAX_PHOTOS_PER_GALAXY := lt_of_lt_of_le hi (min_le_right _ _)
      simp [buildPhotos, List.getElem?_take, hit, List.getElem?_eq_getElem hif]
    · rw [if_neg hi]
      have : (buildPhotos cfg files).length ≤ i := by
        simp only [buildPhotos, List.length_mapIdx, List.length_take]
        omega
      simp [List.getElem?_eq_none this]

/-- **C6 (amended).** One listing request is issued per configured
collection; the `i`-th loaded entry is a function of the `i`-th config
and its own fetch result alone, so a failed request yields an empty
photo list for that collection only and never alters a sibling's
result.  (The commit itself is batched — see the counterexample.) -/
theorem registry_loading (configs : List GalaxyConfig)
    (results : Nat → Option (List String)) :
    (requestedFolders configs).length = configs.length ∧
    (∀ i : Nat, (requestedFolders configs)[i]? =
      configs[i]?.map fun c => c.folder) ∧
    (loadAllGalaxies configs results).length = configs.length ∧
    (∀ i : Nat, (loadAllGalaxies configs results)[i]? =
      configs[i]?.map fun c => loadGalaxy c (results i)) ∧
    (∀ i : Nat, results i = none →
      ((loadAllGalaxies configs results)[i]?.map fun g => g.photos) =
        configs[i]?.map fun _ => ([] : List PhotoMetadata)) := by
  refine ⟨by simp [requestedFolders], fun i => by simp [requestedFolders],
    by simp [loadAllGalaxies], fun i => by simp [loadAllGalaxies],
    fun i hr => ?_⟩
  simp only [loadAllGalaxies, List.getElem?_mapIdx, hr, Option.map_map]
  cases configs[i]? <;> simp [loadGalaxy]

theorem registry_loading_witness :
    ((loadAllGalaxies (GALAXY_CONFIGS.take 2) fun _ => none)[0]?.map
        fun g => g.photos) =
      ((GALAXY_CONFIGS.take 2)[0]?.map fun _ => ([] : List PhotoMetadata)) :=
  (registry_loading (GALAXY_CONFIGS.take 2) fun _ => none).2.2.2.2 0 rfl

/-- **C6 counterexample.** The mount effect performs a single batched
`setGalaxies` after `Promise.all` settles, so with the first two
configured collections and both fetches succeeding, the `galaxies`
state takes exactly two observable values — the initial all-empty list
and the final fully-populated list.  No observable state has one
collection populated while the other is still empty, contradicting
per-result incremental population. -/
theorem registry_loading_counterexample :
    (observableGalaxyStates (GALAXY_CONFIGS.take 2)
        fun _ => some ["a.jpg"]).length = 2 ∧
    ¬ ∃ st ∈ observableGalaxyStates (GALAXY_CONFIGS.take 2)
        fun _ => some ["a.jpg"],
      ((st[0]?.map fun g => g.photos) = some [] ∧
        (st[1]?.map fun g => g.photos) ≠ some []) ∨
      ((st[0]?.map fun g => g.photos) ≠ some [] ∧
        (st[1]?.map fun g => g.photos) = some []) := by
  constructor
  · rfl
  · decide

end FloatingMemories
